import Mathlib

/-!
Verification of the geometry and boundary-enforcement engine of the
client-side-crop repository, against its natural-language specification.

The TypeScript sources are shallowly embedded over exact rationals (ℚ):
JavaScript `number` arithmetic on the inputs relevant to the claims is
plain field arithmetic, and all spec tolerances (1e-6, 0.1 px) are
implied by the exact equalities proved here.  Division by zero in ℚ
yields 0; every place where the source could divide by zero is noted at
the definition and the end result agrees with the IEEE evaluation of the
source there.

Embedded components:
 - `calculateFitSelection`  from src/composables/useCropperCalculation.ts
 - `inSelection`, `handleSelectionChange` (movable-selection editor)
   from src/components/MovableCroppingEditor.vue
 - `cropperEditorIsWithin`  from src/components/CropperEditor.vue
 - `snapToBoundary`, `toCanvas` target size, and the pointer/wheel
   interaction gate from src/components/MovableBackgroundImageEditor.vue
 - `validateFile` / `loadImage` from src/composables/useCropper.ts
-/

/-- A DOMRect-like box: `getBoundingClientRect()` results.
(`right`/`bottom` are derived, as in DOMRect.) -/
structure Rect where
  left : ℚ
  top : ℚ
  width : ℚ
  height : ℚ
deriving DecidableEq

def Rect.right (r : Rect) : ℚ := r.left + r.width

def Rect.bottom (r : Rect) : ℚ := r.top + r.height

/-- A selection rectangle `{x, y, width, height}` in container-relative
coordinates (the shape returned by `calculateFitSelection` and carried by
cropper `change` events). -/
structure SelRect where
  x : ℚ
  y : ℚ
  width : ℚ
  height : ℚ
deriving DecidableEq

/-- `calculateFitSelection` from src/composables/useCropperCalculation.ts
(lines 32-65), embedded verbatim over ℚ.  Parameter `aspect` is the
source's `aspectRatio` and `cov` its `coverage`.
In the source, `h = w / R` with `R = 0` evaluates to `±Infinity` (or NaN
when `w = 0`) and the function then returns `null`; over ℚ the same
division yields 0 and the function likewise returns `none`, so results
agree at `R = 0`. -/
def calculateFitSelection (imageRect canvasRect : Rect)
    (aspect cov : ℚ) : Option SelRect :=
  let imgX := imageRect.left - canvasRect.left
  let imgY := imageRect.top - canvasRect.top
  let imgW := imageRect.width
  let imgH := imageRect.height
  -- first try the width-constrained candidate
  let w0 := imgW * cov
  let h0 := w0 / aspect
  -- if the height overflows the image, switch to height-constrained
  let h := if h0 > imgH then imgH * cov else h0
  let w := if h0 > imgH then (imgH * cov) * aspect else w0
  if w ≤ 0 ∨ h ≤ 0 then none
  else some { x := imgX + (imgW - w) / 2, y := imgY + (imgH - h) / 2,
              width := w, height := h }

/-- The container-relative bounds of the displayed image, as both editors
compute them (`maxSelection` in MovableCroppingEditor.vue lines 169-174,
`limit` in CropperEditor.vue lines 56-61):
`{x: imageRect.left - canvasRect.left, y: imageRect.top - canvasRect.top,
width: imageRect.width, height: imageRect.height}`. -/
def maxSelectionOf (imageRect canvasRect : Rect) : SelRect :=
  { x := imageRect.left - canvasRect.left
    y := imageRect.top - canvasRect.top
    width := imageRect.width
    height := imageRect.height }

/-- `inSelection` from src/components/MovableCroppingEditor.vue
(lines 138-150): epsilon-tolerant containment of a candidate selection in
the image bounds.  The source's `const EPSILON = 0.1` appears as 1/10. -/
def inSelection (selection maxSelection : SelRect) : Prop :=
  selection.x ≥ maxSelection.x - 1/10 ∧
  selection.y ≥ maxSelection.y - 1/10 ∧
  selection.x + selection.width ≤ maxSelection.x + maxSelection.width + 1/10 ∧
  selection.y + selection.height ≤ maxSelection.y + maxSelection.height + 1/10

instance (s m : SelRect) : Decidable (inSelection s m) := by
  unfold inSelection
  infer_instance

/-- The inline `isWithin` containment check of `handleSelectionChange` in
src/components/CropperEditor.vue (lines 63-68), whose
`const EPSILON = 1.0` allows a 1 px tolerance. -/
def cropperEditorIsWithin (candidate limit : SelRect) : Prop :=
  candidate.x ≥ limit.x - 1 ∧
  candidate.y ≥ limit.y - 1 ∧
  candidate.x + candidate.width ≤ limit.x + limit.width + 1 ∧
  candidate.y + candidate.height ≤ limit.y + limit.height + 1

instance (c l : SelRect) : Decidable (cropperEditorIsWithin c l) := by
  unfold cropperEditorIsWithin
  infer_instance

/-- `handleSelectionChange` from src/components/MovableCroppingEditor.vue
(lines 152-179), as a transition on the selection state: a cancelled
`change` event (`event.preventDefault()`) leaves the selection at
`current`, an accepted one moves it to `candidate`.  A programmatic
update (`isProgrammaticUpdate`) bypasses the check.  The early returns
for missing image/selection/canvas elements are outside this model: the
claims concern a live editor where all three exist. -/
def handleSelectionChange (isProgrammaticUpdate : Bool)
    (imageRect canvasRect : Rect) (current candidate : SelRect) : SelRect :=
  if isProgrammaticUpdate then candidate
  else if inSelection candidate (maxSelectionOf imageRect canvasRect) then candidate
  else current

/-- The selection-change handler of src/components/CropperEditor.vue
(lines 48-74) restricted to its selection-state effect: reject (keep
`current`) iff the candidate fails the 1 px containment check. -/
def cropperEditorHandleSelectionChange
    (imageRect canvasRect : Rect) (current candidate : SelRect) : SelRect :=
  if cropperEditorIsWithin candidate (maxSelectionOf imageRect canvasRect) then candidate
  else current

/-- `ACCEPTED_FORMATS` from src/composables/useCropper.ts (lines 3-24). -/
def ACCEPTED_FORMATS : List String :=
  ["image/jpeg", "image/png", "image/gif", "image/webp", "image/bmp",
   "image/heic", "image/heif", "image/avif"]

/-- The fields of a DOM `File` that useCropper.ts reads. -/
structure UploadedFile where
  name : String
  type : String
  size : ℕ
deriving DecidableEq

/-- `ValidationResult` from src/composables/useCropper.ts (lines 34-37). -/
structure ValidationResult where
  valid : Bool
  error : Option String
deriving DecidableEq

/-- The mutable state owned by `useCropper` (the three refs), plus the
log of object URLs passed to `URL.revokeObjectURL` so that revocation
effects are observable. -/
structure CropperState where
  imageUrl : String
  imageName : String
  imageMimeType : String
  revokedUrls : List String
deriving DecidableEq

/-- `validateFile` from src/composables/useCropper.ts (lines 44-60).
The size-error message interpolates `(maxFileSize/1024/1024).toFixed(0)`;
here the number is rendered with truncating natural division, which
agrees with `toFixed(0)` at the power-of-two sizes the app uses and is
irrelevant to every claim (only `valid` is ever branched on). -/
def validateFile (maxFileSize : ℕ) (file : UploadedFile) : ValidationResult :=
  if file.type ∉ ACCEPTED_FORMATS then
    { valid := false
      error := some "不支援的圖片格式，請選擇 JPG、PNG、GIF、WebP、BMP、HEIC 或 AVIF" }
  else if file.size > maxFileSize then
    { valid := false
      error := some ("圖片大小超過 " ++ toString (maxFileSize / 1024 / 1024) ++ "MB 限制") }
  else { valid := true, error := none }

/-- `loadImage` from src/composables/useCropper.ts (lines 62-77).
`newUrl` stands for the fresh URL `URL.createObjectURL(file)` returns;
revoking the previous URL is recorded in `revokedUrls`. -/
def loadImage (maxFileSize : ℕ) (newUrl : String)
    (s : CropperState) (file : UploadedFile) : ValidationResult × CropperState :=
  let validation := validateFile maxFileSize file
  if validation.valid = false then (validation, s)
  else
    let s1 := if s.imageUrl ≠ "" then
        { s with revokedUrls := s.revokedUrls ++ [s.imageUrl] }
      else s
    ({ valid := true, error := none },
     { s1 with imageUrl := newUrl, imageName := file.name,
               imageMimeType := file.type })

/-- The image's affine transform `[a, b, c, d, tx, ty]` as returned by
`image.$getTransform()`: `[scaleX, skewY, skewX, scaleY, translateX,
translateY]`.  Parametric in the scalar type: the boundary geometry uses
ℚ, the export mapper needs ℝ for the square root. -/
structure TransformMatrix (α : Type) where
  a : α
  b : α
  c : α
  d : α
  tx : α
  ty : α
deriving DecidableEq

/-- The uniform-scale decomposition in `toCanvas`
(MovableBackgroundImageEditor.vue line 60):
`scale = Math.sqrt(matrix[0]*matrix[0] + matrix[1]*matrix[1])`. -/
noncomputable def exportScale (matrix : TransformMatrix ℝ) : ℝ :=
  Real.sqrt (matrix.a * matrix.a + matrix.b * matrix.b)

/-- The target rasterization size requested by `toCanvas`
(MovableBackgroundImageEditor.vue lines 62-72):
`(Math.round(width / scale), Math.round(height / scale))` for the live
selection's on-screen width and height.  JavaScript `Math.round` and
Mathlib's `round` both round halves up. -/
noncomputable def toCanvasTargetSize (width height : ℝ)
    (matrix : TransformMatrix ℝ) : ℤ × ℤ :=
  (round (width / exportScale matrix), round (height / exportScale matrix))

/-- `snapToBoundary` from src/components/MovableBackgroundImageEditor.vue
(lines 76-188), as the pure function from the live geometry to the
corrected transform matrix.  Inputs: the `getBoundingClientRect()` boxes
of the selection and the image, the current matrix, and the canvas
(parent) element's rendered width (`canvasRect.width`) and layout width
(`canvas.offsetWidth`) from which the source derives `globalScale`.
The source's `widthRatio`/`heightRatio`/`maxRatio` appear as
`widthFactor`/`heightFactor`/`maxFactor`.  When `changed` stays false
the source skips `$setTransform`; the matrix returned here equals the
input matrix in exactly those cases, so the returned value is always the
image's resulting transform. -/
def snapToBoundary (selectionRect imageRect : Rect)
    (matrix : TransformMatrix ℚ)
    (canvasRectWidth canvasOffsetWidth : ℚ) : TransformMatrix ℚ :=
  -- 1. scale check (lines 89-125): if the image is smaller than the
  -- selection (with a 1% allowance), scale up by the max of the two
  -- selection/image size quotients; transform-origin center means only
  -- the four linear components change.
  let widthFactor := selectionRect.width / imageRect.width
  let heightFactor := selectionRect.height / imageRect.height
  let maxFactor := max widthFactor heightFactor
  let scaleNeeded := maxFactor > 101/100
  let a1 := if scaleNeeded then matrix.a * maxFactor else matrix.a
  let b1 := if scaleNeeded then matrix.b * maxFactor else matrix.b
  let c1 := if scaleNeeded then matrix.c * maxFactor else matrix.c
  let d1 := if scaleNeeded then matrix.d * maxFactor else matrix.d
  -- estimated image bounds after the center-preserving scale
  let cx := imageRect.left + imageRect.width / 2
  let cy := imageRect.top + imageRect.height / 2
  let currentWidth := if scaleNeeded then imageRect.width * maxFactor
    else imageRect.width
  let currentHeight := if scaleNeeded then imageRect.height * maxFactor
    else imageRect.height
  let currentLeft := if scaleNeeded then cx - currentWidth / 2 else imageRect.left
  let currentTop := if scaleNeeded then cy - currentHeight / 2 else imageRect.top
  -- 2. translation check (lines 127-170): close any per-side gap, with
  -- the viewport-pixel delta converted to local units by `globalScale`
  let globalScale := if canvasOffsetWidth > 0 then canvasRectWidth / canvasOffsetWidth
    else 1
  let dx := if currentLeft > selectionRect.left then selectionRect.left - currentLeft
    else if currentLeft + currentWidth < selectionRect.right then
      selectionRect.right - (currentLeft + currentWidth)
    else 0
  let dy := if currentTop > selectionRect.top then selectionRect.top - currentTop
    else if currentTop + currentHeight < selectionRect.bottom then
      selectionRect.bottom - (currentTop + currentHeight)
    else 0
  if (dx ≠ 0 ∨ dy ≠ 0) ∧ globalScale > 0 then
    ⟨a1, b1, c1, d1, matrix.tx + dx / globalScale, matrix.ty + dy / globalScale⟩
  else ⟨a1, b1, c1, d1, matrix.tx, matrix.ty⟩

/-- Modelled from the spec (§4.2 snap-back sub-mode), for comparison with
`snapToBoundary`: (1) if the image is smaller than the Selection along
either axis, scale the image about its center by the minimal factor
making both axes at least the selection size (multiplying the four
linear matrix components); (2) translate by the minimal per-side vector
removing any gap between image edge and selection edge, only on sides
where a gap exists, with the container-pixel delta divided by the ratio
of the container's rendered viewport width to its layout width. -/
def specSnapCorrection (selectionRect imageRect : Rect)
    (matrix : TransformMatrix ℚ)
    (canvasRectWidth canvasOffsetWidth : ℚ) : TransformMatrix ℚ :=
  -- step (1): triggered whenever the image is smaller on either axis
  let smaller := imageRect.width < selectionRect.width ∨
    imageRect.height < selectionRect.height
  let factor := max (selectionRect.width / imageRect.width)
    (selectionRect.height / imageRect.height)
  let a1 := if smaller then matrix.a * factor else matrix.a
  let b1 := if smaller then matrix.b * factor else matrix.b
  let c1 := if smaller then matrix.c * factor else matrix.c
  let d1 := if smaller then matrix.d * factor else matrix.d
  let cx := imageRect.left + imageRect.width / 2
  let cy := imageRect.top + imageRect.height / 2
  let currentWidth := if smaller then imageRect.width * factor else imageRect.width
  let currentHeight := if smaller then imageRect.height * factor
    else imageRect.height
  let currentLeft := if smaller then cx - currentWidth / 2 else imageRect.left
  let currentTop := if smaller then cy - currentHeight / 2 else imageRect.top
  -- step (2): minimal per-side correction, never pushing a satisfied side
  let globalScale := if canvasOffsetWidth > 0 then canvasRectWidth / canvasOffsetWidth
    else 1
  let dx := if currentLeft > selectionRect.left then selectionRect.left - currentLeft
    else if currentLeft + currentWidth < selectionRect.right then
      selectionRect.right - (currentLeft + currentWidth)
    else 0
  let dy := if currentTop > selectionRect.top then selectionRect.top - currentTop
    else if currentTop + currentHeight < selectionRect.bottom then
      selectionRect.bottom - (currentTop + currentHeight)
    else 0
  if (dx ≠ 0 ∨ dy ≠ 0) ∧ globalScale > 0 then
    ⟨a1, b1, c1, d1, matrix.tx + dx / globalScale, matrix.ty + dy / globalScale⟩
  else ⟨a1, b1, c1, d1, matrix.tx, matrix.ty⟩

/-- The `initialCoverage` prop check of MovableCroppingContainer
(src/unnamed/part_009 lines 165-169): `console.warn` fires iff the
coverage is below 0.1 or above 1. -/
def movableCroppingContainerWarnsCoverage (initialCoverage : ℚ) : Prop :=
  initialCoverage < 1/10 ∨ initialCoverage > 1

instance (c : ℚ) : Decidable (movableCroppingContainerWarnsCoverage c) := by
  unfold movableCroppingContainerWarnsCoverage
  infer_instance

/-- The aspect-ratio prop check of MovableCroppingContainer
(src/unnamed/part_009 lines 177-179): `console.warn` fires iff the
aspect ratio is not positive. -/
def movableCroppingContainerWarnsAspect (aspect : ℚ) : Prop :=
  aspect ≤ 0

instance (a : ℚ) : Decidable (movableCroppingContainerWarnsAspect a) := by
  unfold movableCroppingContainerWarnsAspect
  infer_instance

/-- A JavaScript number as the configuration boundary can receive it:
a finite value, or one of the IEEE special values `Infinity`,
`-Infinity`, `NaN` (all of type `number`, so they pass the prop's type
annotation and reach the `aspectRatio <= 0` check unchanged). -/
inductive JsNumber where
  | finite (q : ℚ)
  | posInf
  | negInf
  | nan
deriving DecidableEq

/-- IEEE-754 `<=` as JavaScript evaluates it on these values: every
comparison involving NaN is false, `-Infinity` is below and `Infinity`
above every finite value, and each infinity compares `<=` itself. -/
def JsNumber.le : JsNumber → JsNumber → Bool
  | .nan, _ => false
  | _, .nan => false
  | .negInf, _ => true
  | _, .negInf => false
  | _, .posInf => true
  | .posInf, _ => false
  | .finite a, .finite b => decide (a ≤ b)

/-- The aspect-ratio prop check of MovableCroppingContainer
(src/unnamed/part_009 lines 177-179) over the full JavaScript number
domain: `console.warn` fires iff `props.aspectRatio <= 0` evaluates to
true under IEEE comparison.  On finite values this agrees with
`movableCroppingContainerWarnsAspect`. -/
def movableCroppingContainerWarnsAspectJs (aspect : JsNumber) : Bool :=
  aspect.le (.finite 0)

/-- The interaction-gate state of MovableBackgroundImageEditor.vue: the
keys of the `activePointers` map (line 191), whether the window-level
pointerup/pointercancel/pointermove listeners registered by
`onPointerDown` are currently attached (lines 260-263 and 286-288), and
whether a wheel-debounce `setTimeout(snapToBoundary, 150)` is pending
(lines 291-298).  The stored pointer positions and
`prevTwoFingerCenter` feed only the two-finger pan translation and never
influence when `snapToBoundary` runs, so they are not modelled. -/
structure GateState where
  activePointers : List ℕ
  listenersAttached : Bool
  wheelTimerPending : Bool
deriving DecidableEq

/-- The discrete input events of the interaction gate. -/
inductive GateEvent where
  /-- `pointerdown` on the cropper canvas (`onPointerDown`, lines 274-289). -/
  | pointerDown (pid : ℕ)
  /-- `pointerup` or `pointercancel` on the window (`onPointerUp`, lines
  251-268); delivered only while the window listeners are attached. -/
  | pointerUp (pid : ℕ)
  /-- `wheel` on the cropper canvas (`onWheel`, lines 292-298): clears
  and re-arms the 150 ms debounce timer. -/
  | wheel
  /-- the pending wheel-debounce timer fires, 150 ms having elapsed with
  no further wheel event. -/
  | wheelTimerFire
deriving DecidableEq

/-- `activePointers.set(event.pointerId, …)` restricted to the key set:
a pointer id is tracked at most once. -/
def trackPointer (ps : List ℕ) (pid : ℕ) : List ℕ :=
  if pid ∈ ps then ps else ps ++ [pid]

/-- One step of the interaction gate.  Returns the successor state and
whether the event caused `snapToBoundary` to run. -/
def gateStep (s : GateState) : GateEvent → GateState × Bool
  | .pointerDown pid =>
      -- track the pointer and attach the window listeners
      (⟨trackPointer s.activePointers pid, true, s.wheelTimerPending⟩, false)
  | .pointerUp pid =>
      if s.listenersAttached then
        let ps := s.activePointers.erase pid
        if ps = [] then
          -- last finger lifted: detach listeners and snap to boundary
          (⟨ps, false, s.wheelTimerPending⟩, true)
        else (⟨ps, s.listenersAttached, s.wheelTimerPending⟩, false)
      else (s, false)
  | .wheel => (⟨s.activePointers, s.listenersAttached, true⟩, false)
  | .wheelTimerFire =>
      if s.wheelTimerPending then
        -- the debounce callback is `snapToBoundary` itself, run
        -- unconditionally: nothing consults `activePointers` here
        (⟨s.activePointers, s.listenersAttached, false⟩, true)
      else (s, false)

/-- Folds `gateStep` over an event list, counting `snapToBoundary` runs. -/
def gateRun (s : GateState) : List GateEvent → GateState × ℕ
  | [] => (s, 0)
  | e :: es =>
      let step := gateStep s e
      let rest := gateRun step.1 es
      (rest.1, (if step.2 then 1 else 0) + rest.2)

/-- **C9.**  The spec's worked example: imageBox 400×400 at (100,50) in a
600×600 container, aspect 9/16, coverage 0.7 gives
x = 221.25 = 885/4, y = 110, width = 157.5 = 315/2, height = 280 —
exactly, hence within the ±0.1 tolerance the spec allows. -/
theorem calculateFitSelection_example_9_16 :
    calculateFitSelection ⟨100, 50, 400, 400⟩ ⟨0, 0, 600, 600⟩ (9/16) (7/10) =
      some ⟨885/4, 110, 315/2, 280⟩ := by
  norm_num [calculateFitSelection]

/-- **C1.**  For positive-dimension image and container boxes, coverage in
(0,1] and a positive aspect ratio, `calculateFitSelection` returns a
rectangle (not `null`) whose width/height ratio is exactly the requested
aspect ratio, which lies fully inside the image's container-relative box,
and whose center is exactly the image box's center.  The equalities are
exact over ℚ, hence within the spec's 1e-6 / epsilon tolerances. -/
theorem calculateFitSelection_correct
    (img cont : Rect) (aspect cov : ℚ)
    (hw : 0 < img.width) (hh : 0 < img.height)
    (ha : 0 < aspect) (hc0 : 0 < cov) (hc1 : cov ≤ 1) :
    ∃ r, calculateFitSelection img cont aspect cov = some r ∧
      r.width / r.height = aspect ∧
      img.left - cont.left ≤ r.x ∧
      r.x + r.width ≤ img.left - cont.left + img.width ∧
      img.top - cont.top ≤ r.y ∧
      r.y + r.height ≤ img.top - cont.top + img.height ∧
      r.x + r.width / 2 = img.left - cont.left + img.width / 2 ∧
      r.y + r.height / 2 = img.top - cont.top + img.height / 2 := by
  simp only [calculateFitSelection]
  split_ifs with hcond hg hg'
  · -- height-constrained candidate rejected by the positivity guard: impossible
    exfalso
    rcases hg with h | h
    · exact absurd h (not_le.mpr (mul_pos (mul_pos hh hc0) ha))
    · exact absurd h (not_le.mpr (mul_pos hh hc0))
  · -- height-constrained branch
    have h1 : img.height * aspect < img.width * cov := by
      rwa [gt_iff_lt, lt_div_iff₀ ha] at hcond
    have h2 : img.height * cov * aspect ≤ img.width := by
      nlinarith [mul_lt_mul_of_pos_right h1 hc0,
        mul_le_of_le_one_right (mul_pos hw hc0).le hc1,
        mul_le_of_le_one_right hw.le hc1]
    have h3 : img.height * cov ≤ img.height := mul_le_of_le_one_right hh.le hc1
    refine ⟨_, rfl, ?_, ?_, ?_, ?_, ?_, ?_, ?_⟩ <;> dsimp only
    · exact mul_div_cancel_left₀ aspect (mul_pos hh hc0).ne'
    · linarith
    · linarith
    · linarith
    · linarith
    · ring
    · ring
  · -- width-constrained candidate rejected by the positivity guard: impossible
    exfalso
    rcases hg' with h | h
    · exact absurd h (not_le.mpr (mul_pos hw hc0))
    · exact absurd h (not_le.mpr (div_pos (mul_pos hw hc0) ha))
  · -- width-constrained branch
    rw [not_lt] at hcond
    have h2 : img.width * cov ≤ img.width := mul_le_of_le_one_right hw.le hc1
    refine ⟨_, rfl, ?_, ?_, ?_, ?_, ?_, ?_, ?_⟩ <;> dsimp only
    · rw [div_div_eq_mul_div]
      exact mul_div_cancel_left₀ aspect (mul_pos hw hc0).ne'
    · linarith
    · linarith
    · linarith
    · linarith
    · ring
    · ring

/-- Witness for `calculateFitSelection_correct` at a concrete input:
a 200×100 image box at the container origin, aspect 1, coverage 1/2. -/
theorem calculateFitSelection_correct_witness :
    ∃ r, calculateFitSelection ⟨0, 0, 200, 100⟩ ⟨0, 0, 300, 300⟩ 1 (1/2) = some r ∧
      r.width / r.height = 1 ∧
      (0:ℚ) - 0 ≤ r.x ∧
      r.x + r.width ≤ 0 - 0 + 200 ∧
      (0:ℚ) - 0 ≤ r.y ∧
      r.y + r.height ≤ 0 - 0 + 100 ∧
      r.x + r.width / 2 = 0 - 0 + 200 / 2 ∧
      r.y + r.height / 2 = 0 - 0 + 100 / 2 :=
  calculateFitSelection_correct ⟨0, 0, 200, 100⟩ ⟨0, 0, 300, 300⟩ 1 (1/2)
    (by norm_num) (by norm_num) (by norm_num) (by norm_num) (by norm_num)

/-- **C6.**  With a positive aspect ratio and coverage in (0,1],
`calculateFitSelection` returns `none` whenever the image box has a
non-positive width or height; and independently of the branch taken it
never returns a rectangle with non-positive width or height. -/
theorem calculateFitSelection_degenerate_none
    (img cont : Rect) (aspect cov : ℚ)
    (ha : 0 < aspect) (hc0 : 0 < cov) (hc1 : cov ≤ 1) :
    ((img.width ≤ 0 ∨ img.height ≤ 0) →
      calculateFitSelection img cont aspect cov = none) ∧
    (∀ r, calculateFitSelection img cont aspect cov = some r →
      0 < r.width ∧ 0 < r.height) := by
  constructor
  · intro hdeg
    simp only [calculateFitSelection]
    split_ifs with hcond hg hg2
    · rfl
    · exfalso
      apply hg
      rcases hdeg with h | h
      · -- width ≤ 0 forces the width-constrained height ≤ 0, so the switch
        -- to the height-constrained branch means the height was negative
        have h0 : img.width * cov / aspect ≤ 0 :=
          div_nonpos_iff.mpr (Or.inr ⟨by nlinarith, ha.le⟩)
        have hH : img.height < 0 := lt_of_lt_of_le hcond h0
        right
        nlinarith
      · right
        nlinarith
    · rfl
    · exfalso
      apply hg2
      rw [not_lt] at hcond
      rcases hdeg with h | h
      · left
        nlinarith
      · right
        calc img.width * cov / aspect ≤ img.height := hcond
          _ ≤ 0 := h
  · intro r hr
    simp only [calculateFitSelection] at hr
    split_ifs at hr with hcond hg hg2
    · rw [not_or, not_le, not_le] at hg
      cases hr
      exact ⟨hg.1, hg.2⟩
    · rw [not_or, not_le, not_le] at hg2
      cases hr
      exact ⟨hg2.1, hg2.2⟩

/-- Witness for `calculateFitSelection_degenerate_none`: a 0×300 image box
yields no selection, and the general positivity conclusion is instantiated
at the same configuration. -/
theorem calculateFitSelection_degenerate_none_witness :
    calculateFitSelection ⟨10, 20, 0, 300⟩ ⟨0, 0, 600, 600⟩ (9/16) (7/10) = none :=
  (calculateFitSelection_degenerate_none ⟨10, 20, 0, 300⟩ ⟨0, 0, 600, 600⟩ (9/16) (7/10)
    (by norm_num) (by norm_num) (by norm_num)).1 (Or.inl (by norm_num))

/-- **C4.**  The selection boundary checks of both editors: a candidate
whose edges lie on or inside the image bounds (in particular one whose
edges coincide exactly with them, zero gap) is accepted; a candidate is
rejected iff some edge lies outside the bounds by more than the
configured epsilon (0.1 px in the movable-selection editor, 1 px in the
plain editor); and a rejected candidate leaves the selection at its last
valid state. -/
theorem selection_boundary_check_correct
    (candidate maxSel current : SelRect) (img canvas : Rect) :
    ((candidate.x ≥ maxSel.x ∧ candidate.y ≥ maxSel.y ∧
      candidate.x + candidate.width ≤ maxSel.x + maxSel.width ∧
      candidate.y + candidate.height ≤ maxSel.y + maxSel.height) →
      inSelection candidate maxSel ∧ cropperEditorIsWithin candidate maxSel) ∧
    (¬ inSelection candidate maxSel ↔
      (candidate.x < maxSel.x - 1/10 ∨ candidate.y < maxSel.y - 1/10 ∨
       maxSel.x + maxSel.width + 1/10 < candidate.x + candidate.width ∨
       maxSel.y + maxSel.height + 1/10 < candidate.y + candidate.height)) ∧
    (¬ cropperEditorIsWithin candidate maxSel ↔
      (candidate.x < maxSel.x - 1 ∨ candidate.y < maxSel.y - 1 ∨
       maxSel.x + maxSel.width + 1 < candidate.x + candidate.width ∨
       maxSel.y + maxSel.height + 1 < candidate.y + candidate.height)) ∧
    (¬ inSelection candidate (maxSelectionOf img canvas) →
      handleSelectionChange false img canvas current candidate = current) ∧
    (inSelection candidate (maxSelectionOf img canvas) →
      handleSelectionChange false img canvas current candidate = candidate) ∧
    (¬ cropperEditorIsWithin candidate (maxSelectionOf img canvas) →
      cropperEditorHandleSelectionChange img canvas current candidate = current) := by
  refine ⟨?_, ?_, ?_, ?_, ?_, ?_⟩
  · rintro ⟨h1, h2, h3, h4⟩
    exact ⟨⟨by linarith, by linarith, by linarith, by linarith⟩,
           ⟨by linarith, by linarith, by linarith, by linarith⟩⟩
  · simp only [inSelection, not_and_or, not_le, ge_iff_le]
  · simp only [cropperEditorIsWithin, not_and_or, not_le, ge_iff_le]
  · intro h
    simp only [handleSelectionChange, Bool.false_eq_true, if_false, if_neg h]
  · intro h
    simp only [handleSelectionChange, Bool.false_eq_true, if_false, if_pos h]
  · intro h
    simp only [cropperEditorHandleSelectionChange, if_neg h]

/-- Witness for `selection_boundary_check_correct`: a candidate that sits
exactly on the image bounds (zero gap on every side) is accepted by both
variants. -/
theorem selection_boundary_check_correct_witness :
    inSelection ⟨0, 0, 10, 10⟩ ⟨0, 0, 10, 10⟩ ∧
    cropperEditorIsWithin ⟨0, 0, 10, 10⟩ ⟨0, 0, 10, 10⟩ :=
  (selection_boundary_check_correct ⟨0, 0, 10, 10⟩ ⟨0, 0, 10, 10⟩ ⟨0, 0, 10, 10⟩
    ⟨0, 0, 10, 10⟩ ⟨0, 0, 10, 10⟩).1 (by norm_num)

/-- **C10.**  `loadImage` is transactional: a file failing validation
(MIME type not accepted, or size exceeding `maxFileSize`) yields an
invalid result and leaves the whole cropper state unchanged — in
particular `imageUrl`, `imageName`, `imageMimeType` keep their values and
no object URL is revoked. -/
theorem loadImage_transactional (maxFileSize : ℕ) (newUrl : String)
    (s : CropperState) (file : UploadedFile)
    (hbad : file.type ∉ ACCEPTED_FORMATS ∨ file.size > maxFileSize) :
    (loadImage maxFileSize newUrl s file).1.valid = false ∧
    (loadImage maxFileSize newUrl s file).2 = s := by
  rcases hbad with h | h
  · simp [loadImage, validateFile, h]
  · by_cases hm : file.type ∈ ACCEPTED_FORMATS
    · simp [loadImage, validateFile, hm, h]
    · simp [loadImage, validateFile, hm, h]

/-- Witness for `loadImage_transactional`: a text file is rejected and the
state (holding a previously loaded image) is untouched. -/
theorem loadImage_transactional_witness :
    (loadImage 10485760 "blob:new" ⟨"blob:old", "a.jpg", "image/jpeg", []⟩
      ⟨"b.txt", "text/plain", 5⟩).1.valid = false ∧
    (loadImage 10485760 "blob:new" ⟨"blob:old", "a.jpg", "image/jpeg", []⟩
      ⟨"b.txt", "text/plain", 5⟩).2 = ⟨"blob:old", "a.jpg", "image/jpeg", []⟩ :=
  loadImage_transactional 10485760 "blob:new" ⟨"blob:old", "a.jpg", "image/jpeg", []⟩
    ⟨"b.txt", "text/plain", 5⟩ (Or.inl (by simp [ACCEPTED_FORMATS]))

/-- **C5.**  The export mapping: for any selection on-screen size and any
transform, the requested rasterization size is
`(round(w / sqrt(a² + b²)), round(h / sqrt(a² + b²)))`; in particular
under a uniform scale-by-`s` transform (`a = d = s`, `b = c = 0`) the
exported dimensions are `(round(w / s), round(h / s))`. -/
theorem toCanvas_export_dims (w h s tx ty : ℝ) (hs : 0 < s) :
    (∀ m : TransformMatrix ℝ, toCanvasTargetSize w h m =
      (round (w / Real.sqrt (m.a * m.a + m.b * m.b)),
       round (h / Real.sqrt (m.a * m.a + m.b * m.b)))) ∧
    toCanvasTargetSize w h ⟨s, 0, 0, s, tx, ty⟩ =
      (round (w / s), round (h / s)) := by
  constructor
  · intro m
    rfl
  · have hsc : exportScale ⟨s, 0, 0, s, tx, ty⟩ = s := by
      simp only [exportScale]
      rw [show s * s + 0 * 0 = s ^ 2 by ring, Real.sqrt_sq hs.le]
    simp [toCanvasTargetSize, hsc]

/-- Witness for `toCanvas_export_dims`: a 5×3 selection under a uniform
scale of 2 exports at `(round 2.5, round 1.5) = (3, 2)`. -/
theorem toCanvas_export_dims_witness :
    toCanvasTargetSize 5 3 ⟨2, 0, 0, 2, 1, 7⟩ = (3, 2) := by
  rw [(toCanvas_export_dims 5 3 2 1 7 (by norm_num)).2]
  norm_num [round_eq]

/-- **C7.**  Snap-back is a no-op on an already-valid state: when the
image's displayed bounds contain the selection on every side (and the
image has positive size), `snapToBoundary` returns the transform matrix
unchanged — the corrective scale and translation are exactly zero, below
any epsilon.  Hence a second invocation after a completed correction
whose result satisfies the containment invariant changes nothing. -/
theorem snapToBoundary_noop_when_contained
    (sel img : Rect) (m : TransformMatrix ℚ) (cw ow : ℚ)
    (hiw : 0 < img.width) (hih : 0 < img.height)
    (hleft : img.left ≤ sel.left) (htop : img.top ≤ sel.top)
    (hright : sel.left + sel.width ≤ img.left + img.width)
    (hbottom : sel.top + sel.height ≤ img.top + img.height) :
    snapToBoundary sel img m cw ow = m := by
  have hwle : sel.width / img.width ≤ 1 := (div_le_one hiw).mpr (by linarith)
  have hhle : sel.height / img.height ≤ 1 := (div_le_one hih).mpr (by linarith)
  have h1 : ¬(101/100 < max (sel.width / img.width) (sel.height / img.height)) :=
    not_lt.mpr (le_trans (max_le hwle hhle) (by norm_num))
  have h2 : ¬(sel.left < img.left) := not_lt.mpr hleft
  have h3 : ¬(img.left + img.width < Rect.right sel) := by
    rw [Rect.right]; exact not_lt.mpr hright
  have h4 : ¬(sel.top < img.top) := not_lt.mpr htop
  have h5 : ¬(img.top + img.height < Rect.bottom sel) := by
    rw [Rect.bottom]; exact not_lt.mpr hbottom
  simp only [snapToBoundary, gt_iff_lt]
  rw [if_neg h1, if_neg h1, if_neg h1, if_neg h1, if_neg h1, if_neg h1,
      if_neg h1, if_neg h1]
  rw [if_neg h2, if_neg h3, if_neg h4, if_neg h5]
  simp

/-- Witness for `snapToBoundary_noop_when_contained`: a 100×100 selection
centered in a 200×200 image leaves the transform `[2,0,0,2,3,4]`
untouched. -/
theorem snapToBoundary_noop_when_contained_witness :
    snapToBoundary ⟨50, 50, 100, 100⟩ ⟨0, 0, 200, 200⟩ ⟨2, 0, 0, 2, 3, 4⟩ 600 600 =
      ⟨2, 0, 0, 2, 3, 4⟩ :=
  snapToBoundary_noop_when_contained ⟨50, 50, 100, 100⟩ ⟨0, 0, 200, 200⟩
    ⟨2, 0, 0, 2, 3, 4⟩ 600 600 (by norm_num) (by norm_num) (by norm_num)
    (by norm_num) (by norm_num) (by norm_num)

/-- **C2 (counterexample).**  The code is not the spec's two-step
construction verbatim: with the selection 1 px larger than the image on
both axes (size quotient 1.005, inside the source's 1% allowance,
`maxRatio > 1.01` false) the code does not scale and closes the gaps by
translation alone, while the spec construction scales by 1.005 and then
translates by the smaller remaining gap.  The two resulting matrices
differ. -/
theorem snapToBoundary_one_percent_counterexample :
    snapToBoundary ⟨0, 0, 201, 201⟩ ⟨0, 0, 200, 200⟩ ⟨1, 0, 0, 1, 0, 0⟩ 600 600 =
      ⟨1, 0, 0, 1, 1, 1⟩ ∧
    specSnapCorrection ⟨0, 0, 201, 201⟩ ⟨0, 0, 200, 200⟩ ⟨1, 0, 0, 1, 0, 0⟩ 600 600 =
      ⟨201/200, 0, 0, 201/200, 1/2, 1/2⟩ ∧
    snapToBoundary ⟨0, 0, 201, 201⟩ ⟨0, 0, 200, 200⟩ ⟨1, 0, 0, 1, 0, 0⟩ 600 600 ≠
      specSnapCorrection ⟨0, 0, 201, 201⟩ ⟨0, 0, 200, 200⟩ ⟨1, 0, 0, 1, 0, 0⟩ 600 600 := by
  refine ⟨?_, ?_, ?_⟩
  · norm_num [snapToBoundary, Rect.right, Rect.bottom, max_self]
  · norm_num [specSnapCorrection, Rect.right, Rect.bottom, max_self]
  · norm_num [snapToBoundary, specSnapCorrection, Rect.right, Rect.bottom, max_self]

/-- **C2 (amended).**  Outside the 1% scale allowance the snap-back code
is exactly the spec's two-step construction: whenever the image is not
smaller than the selection at all (size quotient at most 1), or smaller
by more than 1% (quotient above 1.01), `snapToBoundary` and the
spec-modelled correction agree — same minimal uniform scale factor
applied to the four linear components about the image center, then the
same minimal per-side gap closure divided by the rendered-to-layout
width quotient of the container. -/
theorem snapToBoundary_matches_spec_outside_tolerance
    (sel img : Rect) (m : TransformMatrix ℚ) (cw ow : ℚ)
    (hiw : 0 < img.width) (hih : 0 < img.height)
    (htol : max (sel.width / img.width) (sel.height / img.height) ≤ 1 ∨
      101/100 < max (sel.width / img.width) (sel.height / img.height)) :
    snapToBoundary sel img m cw ow = specSnapCorrection sel img m cw ow := by
  rcases htol with hle | hgt
  · have h1 : ¬(101/100 < max (sel.width / img.width) (sel.height / img.height)) :=
      not_lt.mpr (le_trans hle (by norm_num))
    have h2 : ¬(img.width < sel.width ∨ img.height < sel.height) := by
      obtain ⟨ha, hb⟩ := max_le_iff.mp hle
      push_neg
      exact ⟨(div_le_one hiw).mp ha, (div_le_one hih).mp hb⟩
    simp only [snapToBoundary, specSnapCorrection, gt_iff_lt]
    simp only [if_neg h1, if_neg h2]
  · have hsm : img.width < sel.width ∨ img.height < sel.height := by
      have h1 : 1 < max (sel.width / img.width) (sel.height / img.height) :=
        lt_trans (by norm_num) hgt
      rcases lt_max_iff.mp h1 with h | h
      · exact Or.inl ((one_lt_div hiw).mp h)
      · exact Or.inr ((one_lt_div hih).mp h)
    simp only [snapToBoundary, specSnapCorrection, gt_iff_lt]
    simp only [if_pos hgt, if_pos hsm]

/-- Witness for `snapToBoundary_matches_spec_outside_tolerance`: a 100×100
selection over a 50×50 image (quotient 2, well above the allowance)
yields the same correction from code and spec construction. -/
theorem snapToBoundary_matches_spec_witness :
    snapToBoundary ⟨0, 0, 100, 100⟩ ⟨0, 0, 50, 50⟩ ⟨1, 0, 0, 1, 0, 0⟩ 600 600 =
      specSnapCorrection ⟨0, 0, 100, 100⟩ ⟨0, 0, 50, 50⟩ ⟨1, 0, 0, 1, 0, 0⟩ 600 600 :=
  snapToBoundary_matches_spec_outside_tolerance ⟨0, 0, 100, 100⟩ ⟨0, 0, 50, 50⟩
    ⟨1, 0, 0, 1, 0, 0⟩ 600 600 (by norm_num) (by norm_num)
    (Or.inr (by norm_num [max_self]))

/-- **C8 (counterexample).**  The claim fails on two invalid
configurations.  (1) A coverage above 1 is outside (0,1] and does
trigger the container's warning, yet the engine does not skip fit
computation: `calculateFitSelection` with coverage 2 on a 400×400 image
returns an 800×800 rectangle rather than `none`.  (2) For the
non-finite aspect ratios `Infinity` and `NaN`, the container's
`aspectRatio <= 0` check evaluates to false under IEEE comparison, so no
warning is reported at the configuration boundary at all. -/
theorem coverage_above_one_not_skipped :
    (movableCroppingContainerWarnsCoverage 2 ∧
      calculateFitSelection ⟨100, 50, 400, 400⟩ ⟨0, 0, 600, 600⟩ 1 2 =
        some ⟨-100, -150, 800, 800⟩) ∧
    movableCroppingContainerWarnsAspectJs .posInf = false ∧
    movableCroppingContainerWarnsAspectJs .nan = false := by
  refine ⟨⟨Or.inr (by norm_num), ?_⟩, rfl, rfl⟩
  norm_num [calculateFitSelection]

/-- **C8 (amended).**  Invalid configurations are detected as follows:
the container warns for every coverage outside [0.1, 1] — in particular
for every coverage outside (0,1] — and, on the aspect-ratio side, for
every finite aspect ratio ≤ 0 (the finite restriction of the IEEE check)
and for `-Infinity`, while `Infinity` and `NaN` slip through unwarned
(see the counterexample); the calculator returns no rectangle for a
non-positive aspect ratio or non-positive coverage, but a coverage above
1 is not skipped by the engine — only warned about (see the
counterexample). -/
theorem invalid_config_amended (img cont : Rect) (aspect cov : ℚ)
    (hw : 0 < img.width) (hh : 0 < img.height) :
    ((aspect ≤ 0 ∨ cov ≤ 0) → calculateFitSelection img cont aspect cov = none) ∧
    ((cov ≤ 0 ∨ 1 < cov) → movableCroppingContainerWarnsCoverage cov) ∧
    (aspect ≤ 0 → movableCroppingContainerWarnsAspect aspect) ∧
    (movableCroppingContainerWarnsAspectJs (.finite aspect) = true ↔
      movableCroppingContainerWarnsAspect aspect) ∧
    movableCroppingContainerWarnsAspectJs .negInf = true := by
  refine ⟨?_, ?_, ?_, ?_, rfl⟩
  · intro hbad
    simp only [calculateFitSelection]
    split_ifs with hcond hg hg2
    · rfl
    · exfalso
      rw [not_or, not_le, not_le] at hg
      obtain ⟨hga, hgb⟩ := hg
      have hcpos : 0 < cov := by nlinarith
      rcases hbad with h | h
      · nlinarith
      · linarith
    · rfl
    · exfalso
      rw [not_or, not_le, not_le] at hg2
      obtain ⟨hga, hgb⟩ := hg2
      rcases hbad with h | h
      · rcases lt_or_eq_of_le h with h0 | h0
        · have : img.width * cov / aspect < 0 := div_neg_of_pos_of_neg hga h0
          linarith
        · rw [h0, div_zero] at hgb
          exact lt_irrefl 0 hgb
      · nlinarith
  · intro h
    rcases h with h | h
    · exact Or.inl (by linarith)
    · exact Or.inr h
  · intro h
    exact h
  · simp [movableCroppingContainerWarnsAspectJs, JsNumber.le,
      movableCroppingContainerWarnsAspect]

/-- Witness for `invalid_config_amended`: a negative aspect ratio on a
positive-size image yields no selection, and a negative coverage
triggers the container's coverage warning. -/
theorem invalid_config_amended_witness :
    calculateFitSelection ⟨0, 0, 100, 100⟩ ⟨0, 0, 100, 100⟩ (-1) (1/2) = none ∧
    movableCroppingContainerWarnsCoverage (-1/2) :=
  ⟨(invalid_config_amended ⟨0, 0, 100, 100⟩ ⟨0, 0, 100, 100⟩ (-1) (1/2)
    (by norm_num) (by norm_num)).1 (Or.inl (by norm_num)),
   (invalid_config_amended ⟨0, 0, 100, 100⟩ ⟨0, 0, 100, 100⟩ (-1) (-1/2)
    (by norm_num) (by norm_num)).2.1 (Or.inl (by norm_num))⟩

/-- **C3 (counterexample).**  Correction can run while a pointer is
active: a wheel event arms the 150 ms debounce, a pointer goes down
(which does not cancel the timer), and when the timer fires it invokes
`snapToBoundary` with `activePointers` non-empty. -/
theorem wheel_snap_during_active_pointer :
    (gateRun ⟨[], false, false⟩ [.wheel, .pointerDown 1]).1 = ⟨[1], true, true⟩ ∧
    (gateStep ⟨[1], true, true⟩ .wheelTimerFire).2 = true ∧
    (⟨[1], true, true⟩ : GateState).activePointers ≠ [] :=
  ⟨rfl, rfl, by decide⟩

/-- **C3 (amended).**  The pointer-driven part of the claim holds: a
pointer-up/cancel runs `snapToBoundary` exactly when it empties the
tracked pointer set (and then detaches the window listeners, so a stray
repeat cannot run it again); pointer-down and wheel events never run it
directly.  But the wheel-debounce timer runs `snapToBoundary` whenever
it fires with the debounce pending, regardless of `activePointers` —
pointer-down does not cancel it (see the counterexample). -/
theorem pointer_snap_exactly_on_empty (s : GateState) (pid : ℕ) :
    ((gateStep s (.pointerUp pid)).2 = true ↔
      s.listenersAttached = true ∧ s.activePointers.erase pid = []) ∧
    ((gateStep s (.pointerUp pid)).2 = true →
      (gateStep s (.pointerUp pid)).1.activePointers = [] ∧
      (gateStep s (.pointerUp pid)).1.listenersAttached = false) ∧
    (gateStep s (.pointerDown pid)).2 = false ∧
    (gateStep s .wheel).2 = false ∧
    ((gateStep s .wheelTimerFire).2 = true ↔ s.wheelTimerPending = true) := by
  obtain ⟨ps, att, wp⟩ := s
  refine ⟨?_, ?_, rfl, rfl, ?_⟩
  · cases att
    · simp [gateStep]
    · by_cases hps : ps.erase pid = []
      · simp [gateStep, hps]
      · simp [gateStep, hps]
  · cases att
    · simp [gateStep]
    · by_cases hps : ps.erase pid = []
      · intro _
        simp [gateStep, hps]
      · simp [gateStep, hps]
  · cases wp
    · simp [gateStep]
    · simp [gateStep]

/-- Witness for `pointer_snap_exactly_on_empty`: lifting the only active
pointer runs the correction. -/
theorem pointer_snap_exactly_on_empty_witness :
    (gateStep ⟨[7], true, false⟩ (.pointerUp 7)).2 = true :=
  (pointer_snap_exactly_on_empty ⟨[7], true, false⟩ 7).1.mpr ⟨rfl, by decide⟩
